import Mathlib

/-!
Shallow embedding of the settings-state machine and repository factory of
`vscode-sync-settings` (`src/settings.ts`, `src/repository-factory.ts`).

Stateful TypeScript is modelled by explicit state passing: the `Settings`
singleton becomes a `SettingsState` value threaded through the operations, the
on-disk `settings.yml` file becomes an `Option String` (`none` = file absent),
and the module-level `$instance` of the factory becomes the `inst` field of a
`World`.  Promise rejection is modelled by the `Res` result type.  External
primitives that the spec places out of scope (YAML serialization, the SHA1
hasher, and the concrete backend transports) are carried as function fields of
an `Env` record; backends are identified by their variant and an allocation
number so that reference (in)equality of instances is expressible.
-/

/-- Modelled from the spec: `repository-type.ts` is not under `src/`.  Spec §3
fixes the closed enumeration {none, file, git, rsync} (the code's tag for
`none` is `DUMMY`, cf. `DummyRepository`); since the document is parsed from
YAML, the tag field may also hold any other value, modelled by `other`. -/
inductive RepositoryType where
  | dummy
  | file
  | git
  | rsync
  | other (tag : String)
deriving DecidableEq, Repr

/-- `Hooks` (settings.ts:26-31): each hook point is an optional command or
command list. -/
inductive HookCmd where
  | one (cmd : String)
  | many (cmds : List String)
deriving DecidableEq, Repr

/-- settings.ts:26-31. -/
structure Hooks where
  preDownload : Option HookCmd := none
  postDownload : Option HookCmd := none
  preUpload : Option HookCmd := none
  postUpload : Option HookCmd := none
deriving DecidableEq, Repr

/-- `Object.keys(hooks).length > 0` (settings.ts:198): a key is present exactly
when the corresponding optional field is set. -/
def Hooks.nonempty (h : Hooks) : Bool :=
  h.preDownload.isSome || h.postDownload.isSome || h.preUpload.isSome || h.postUpload.isSome

/-- `RepositorySettings` (settings.ts:33-40); `messages` is an association
list standing for `Record<string, string>`. -/
structure RepositorySettings where
  branch : Option String := none
  messages : Option (List (String × String)) := none
  path : Option String := none
  shell : Option String := none
  type : RepositoryType
  url : Option String := none
deriving DecidableEq, Repr

/-- `extensionKind` values 'auto' | 'ui' | 'workspace' (settings.ts:43). -/
inductive ExtensionKind where
  | auto
  | ui
  | workspace
deriving DecidableEq, Repr

/-- `SettingsData` (settings.ts:42-48): the shape of a parsed document. -/
structure SettingsData where
  extensionKind : Option ExtensionKind := none
  hooks : Option Hooks := none
  hostname : Option String := none
  profile : Option String := none
  repository : Option RepositorySettings := none
deriving DecidableEq, Repr

/-- JavaScript truthiness of an optional string field: `undefined` and the
empty string are falsy (used by `if(settings.repository.path)` at
repository-factory.ts:22, `if(data.profile)` at settings.ts:232, etc.). -/
def truthy : Option String → Bool
  | none => false
  | some s => s != ""

/-- The five concrete backend classes (repository-factory.ts:1-5). -/
inductive RepoVariant where
  | dummy
  | file
  | localGit
  | remoteGit
  | rsync
deriving DecidableEq, Repr

/-- A live backend instance: its variant and an allocation number standing for
object identity, so that "the very same instance" is expressible. -/
structure Repository where
  variant : RepoVariant
  id : Nat
deriving DecidableEq, Repr

/-- The mutable fields of the `Settings` class (settings.ts:55-62).  The
read-only identity fields (`extensionId`, storage URIs) play no role in the
claims and are omitted. -/
structure SettingsState where
  hash : String
  hooks : Hooks
  hostname : Option String
  profile : String
  remote : Bool
  repository : RepositorySettings
deriving DecidableEq, Repr

/-- Log lines produced through `Logger` (`utils/logger`, outside `src/`):
only the level and the literal message matter for the claims; the
interpolated payloads are dropped. -/
inductive Log where
  | info (msg : String)
  | error (msg : String)
deriving DecidableEq, Repr

/-- Errors a factory/settings operation can reject with. -/
inductive Err where
  | mysteriousType (t : RepositoryType)
  | backendError
deriving DecidableEq, Repr

/-- Result of an async operation: `ok` for resolution, `err` for rejection. -/
inductive Res (α : Type) where
  | ok (val : α)
  | err (e : Err)
deriving DecidableEq, Repr

/-- Whether a result is the "mysterious type" `ConfigurationError` thrown at
repository-factory.ts:34. -/
def Res.isMysteriousErr {α : Type} : Res α → Bool
  | .err (.mysteriousType _) => true
  | _ => false

/-- Modelled from the spec: YAML parsing/serialization, the SHA1 hex digest
and the concrete backend transports are assumed primitives outside the core
(spec §1, §4.1).  `parse` returning `none` models `yaml.parse` yielding
`null`; `setProfileOk` decides whether a backend's `setProfile` transport
call succeeds (`BackendError` otherwise). -/
structure Env where
  stringify : SettingsData → String
  parse : String → Option SettingsData
  digest : String → String
  setProfileOk : RepoVariant → String → Bool

/-- `defaults()` (settings.ts:15-24). -/
def defaultsDoc : SettingsData :=
  { hostname := some ""
    repository := some { type := RepositoryType.dummy, path := some "" }
    profile := some "main" }

/-- The `{}` fallback of `yaml.parse(data) ?? {}` (settings.ts:107). -/
def emptyData : SettingsData := {}

/-- `Settings.set` (settings.ts:230-263): returns the updated state and the
log lines emitted, in order.  The `JSON.stringify` payload of the first info
line is dropped (only levels and literal messages are modelled). -/
def Settings.set (s : SettingsState) (data : SettingsData) : SettingsState × List Log :=
  let logs₁ := [Log.info "repository:"]
  let logs₂ := logs₁ ++
    (if truthy data.profile then [Log.info "profile:"]
     else [Log.error "The `profile` property is required"])
  let logs₃ := logs₂ ++ (if truthy data.hostname then [Log.info "hostname:"] else [])
  let remote' :=
    match data.extensionKind with
    | some k => if k ≠ ExtensionKind.auto then k = ExtensionKind.workspace else s.remote
    | none => s.remote
  match data.repository with
  | some repo =>
      ({ s with
          hooks := data.hooks.getD {}
          hostname := data.hostname
          profile := data.profile.getD ""
          remote := remote'
          repository := repo }, logs₃)
  | none =>
      ({ s with
          hooks := data.hooks.getD {}
          hostname := some ""
          profile := ""
          remote := remote'
          repository := { type := RepositoryType.dummy } },
        logs₃ ++ [Log.error "No `repository` property has been defined in the settings"])

/-- The `SettingsData` object built by `Settings.save` (settings.ts:196-210):
`hooks` only when non-empty, `hostname` only when it is a string, always
`profile` and `repository` (the duplicated assignments at lines 209-210 are
no-ops). -/
def savedData (s : SettingsState) : SettingsData :=
  { hooks := if s.hooks.nonempty then some s.hooks else none
    hostname := s.hostname
    profile := some s.profile
    repository := some s.repository }

/-- `Settings.save` (settings.ts:195-222): serializes, recomputes the hash
from the written bytes, writes the file.  Returns the new state and the
written bytes; the disk afterwards holds `some bytes`. -/
def Settings.save (env : Env) (s : SettingsState) : SettingsState × String :=
  let data := env.stringify (savedData s)
  ({ s with hash := env.digest data }, data)

/-- `Settings.setProfile` (settings.ts:224-228). -/
def Settings.setProfile (env : Env) (s : SettingsState) (p : String) : SettingsState × String :=
  Settings.save env { s with profile := p }

/-- `Settings.reload` (settings.ts:174-193).  `disk` is the current contents
of the settings file (`none` = absent, read as `null`).  Returns the new
state, the changed flag, and the logs; the disk is not written. -/
def Settings.reload (env : Env) (s : SettingsState) (disk : Option String) :
    SettingsState × Bool × List Log :=
  let data := disk
  let hash := env.digest (data.getD "")
  if s.hash ≠ hash then
    let res :=
      if truthy data then Settings.set s ((env.parse (data.getD "")).getD emptyData)
      else Settings.set s defaultsDoc
    ({ res.1 with hash := hash }, true, res.2)
  else
    (s, false, [])

/-- The field values the private `Settings` constructor initializes
(settings.ts:55-68, instantiated at settings.ts:102). -/
def loadInit (remote : Bool) : SettingsState :=
  { hash := ""
    hooks := {}
    hostname := none
    profile := ""
    remote := remote
    repository := { type := RepositoryType.dummy } }

/-- `Settings.load` (settings.ts:99-138).  `remote` is
`extensionKind === ExtensionKind.Workspace`; `disk` the settings file
contents; `defaultDoc` the bundled `default-settings.yml` contents (`none` =
absent).  Returns the new state, the resulting disk contents, and the logs.
Exactly one of the three seeding paths executes. -/
def Settings.load (env : Env) (remote : Bool) (disk : Option String)
    (defaultDoc : Option String) : SettingsState × Option String × List Log :=
  let s₀ : SettingsState := loadInit remote
  if truthy disk then
    let res := Settings.set s₀ ((env.parse (disk.getD "")).getD emptyData)
    ({ res.1 with hash := env.digest (disk.getD "") }, disk, res.2)
  else
    match defaultDoc with
    | some dd =>
        let res := Settings.set s₀ ((env.parse dd).getD emptyData)
        ({ res.1 with hash := env.digest dd }, some dd, res.2)
    | none =>
        let res := Settings.set s₀ defaultsDoc
        let sav := Settings.save env res.1
        (sav.1, some sav.2, res.2)

/-- Observable backend/disk effects of a factory operation, in order. -/
inductive Event where
  | construct (v : RepoVariant) (id : Nat)
  | terminate (id : Nat)
  | backendSetProfile (id : Nat) (profile : String)
  | diskWrite (bytes : String)
deriving DecidableEq, Repr

def Event.isConstruct : Event → Bool
  | .construct _ _ => true
  | _ => false

/-- The whole mutable state reachable from the factory: the `Settings`
singleton, the settings file, the module-level `$instance`
(repository-factory.ts:10) and the allocation counter for fresh instances. -/
structure World where
  settings : SettingsState
  disk : Option String
  inst : Option Repository
  nextId : Nat
deriving DecidableEq, Repr

/-- The `if`/`else if` selection chain of `create`
(repository-factory.ts:15-31): which backend class ends up assigned to
`$instance`, `none` when the chain assigns nothing. -/
def pickVariant (r : RepositorySettings) : Option RepoVariant :=
  if r.type = RepositoryType.dummy then some RepoVariant.dummy
  else if r.type = RepositoryType.file then some RepoVariant.file
  else if r.type = RepositoryType.git then
    if truthy r.path then some RepoVariant.localGit
    else if truthy r.url then some RepoVariant.remoteGit
    else none
  else if r.type = RepositoryType.rsync then some RepoVariant.rsync
  else none

/-- `create` (repository-factory.ts:12-38): clears `$instance`, selects the
backend class from `settings.repository` (git sub-variant by truthiness of
`path`, then `url`), throws the "mysterious type" error when nothing was
assigned, otherwise calls `setProfile(settings.profile)` on the fresh
instance.  State mutations that precede a rejection persist, as in JS. -/
def create (env : Env) (w : World) : World × List Event × Res Repository :=
  let w₀ := { w with inst := none }
  let s := w₀.settings
  match pickVariant s.repository with
  | none => (w₀, [], Res.err (Err.mysteriousType s.repository.type))
  | some v =>
      let r : Repository := { variant := v, id := w₀.nextId }
      let w₁ := { w₀ with inst := some r, nextId := w₀.nextId + 1 }
      let ev := [Event.construct v r.id, Event.backendSetProfile r.id s.profile]
      if env.setProfileOk v s.profile then (w₁, ev, Res.ok r)
      else (w₁, ev, Res.err Err.backendError)

/-- `RepositoryFactory.get` (repository-factory.ts:41-51): returns the cached
instance, otherwise creates one from the current settings (`$instance!` on
the success path is the repository `create` assigned). -/
def RepositoryFactory.get (env : Env) (w : World) : World × List Event × Res Repository :=
  match w.inst with
  | some r => (w, [], Res.ok r)
  | none => create env w

/-- `RepositoryFactory.reload` (repository-factory.ts:53-68): reloads the
settings; when the document changed and an instance is live, terminates it
and re-creates (a rejection of `create` propagates); returns the changed
flag otherwise. -/
def RepositoryFactory.reload (env : Env) (w : World) : World × List Event × Res Bool :=
  let sres := Settings.reload env w.settings w.disk
  if sres.2.1 then
    match w.inst with
    | some r =>
        let cres := create env { w with settings := sres.1 }
        match cres.2.2 with
        | Res.ok _ => (cres.1, Event.terminate r.id :: cres.2.1, Res.ok true)
        | Res.err e => (cres.1, Event.terminate r.id :: cres.2.1, Res.err e)
    | none => ({ w with settings := sres.1 }, [], Res.ok true)
  else
    ({ w with settings := sres.1 }, [], Res.ok false)

/-- `RepositoryFactory.reset` (repository-factory.ts:70-76). -/
def RepositoryFactory.reset (w : World) : World × List Event :=
  match w.inst with
  | some r => ({ w with inst := none }, [Event.terminate r.id])
  | none => (w, [])

/-- `RepositoryFactory.setProfile` (repository-factory.ts:78-86): forwards to
the live instance first (a rejection propagates and nothing is persisted),
then persists through `Settings.setProfile`. -/
def RepositoryFactory.setProfile (env : Env) (w : World) (p : String) :
    World × List Event × Res Unit :=
  match w.inst with
  | some r =>
      if env.setProfileOk r.variant p then
        let sres := Settings.setProfile env w.settings p
        ({ w with settings := sres.1, disk := some sres.2 },
          [Event.backendSetProfile r.id p, Event.diskWrite sres.2], Res.ok ())
      else
        (w, [Event.backendSetProfile r.id p], Res.err Err.backendError)
  | none =>
      let sres := Settings.setProfile env w.settings p
      ({ w with settings := sres.1, disk := some sres.2 },
        [Event.diskWrite sres.2], Res.ok ())

/-- The error condition of claim C2, read off the spec with "set" taken as
JS-truthy: the type tag lies outside the closed enumeration, or the type is
git and neither `path` nor `url` is a non-empty string. -/
def mysteriousCond (r : RepositorySettings) : Prop :=
  (r.type ≠ RepositoryType.dummy ∧ r.type ≠ RepositoryType.file ∧
    r.type ≠ RepositoryType.git ∧ r.type ≠ RepositoryType.rsync) ∨
  (r.type = RepositoryType.git ∧ truthy r.path = false ∧ truthy r.url = false)

/-- The spec-side selection rule (spec §4.1/§4.2): the matching backend
variant for a well-formed parameter set, where the git sub-variant is
determined by exactly one of `path`/`url` being set. -/
def specVariant (r : RepositorySettings) : Option RepoVariant :=
  match r.type with
  | RepositoryType.dummy => some RepoVariant.dummy
  | RepositoryType.file => some RepoVariant.file
  | RepositoryType.git =>
      if truthy r.path && !truthy r.url then some RepoVariant.localGit
      else if !truthy r.path && truthy r.url then some RepoVariant.remoteGit
      else none
  | RepositoryType.rsync => some RepoVariant.rsync
  | RepositoryType.other _ => none

theorem create_of_pick_none (env : Env) (w : World)
    (h : pickVariant w.settings.repository = none) :
    create env w =
      ({ w with inst := none }, [],
        Res.err (Err.mysteriousType w.settings.repository.type)) := by
  simp [create, h]

theorem create_of_pick_some (env : Env) (w : World) (v : RepoVariant)
    (h : pickVariant w.settings.repository = some v) :
    create env w =
      ({ w with inst := some ⟨v, w.nextId⟩, nextId := w.nextId + 1 },
        [Event.construct v w.nextId, Event.backendSetProfile w.nextId w.settings.profile],
        if env.setProfileOk v w.settings.profile then Res.ok ⟨v, w.nextId⟩
        else Res.err Err.backendError) := by
  simp only [create, h]
  split <;> rename_i hok <;> simp [hok]

theorem pickVariant_eq_none_iff (r : RepositorySettings) :
    pickVariant r = none ↔ mysteriousCond r := by
  unfold pickVariant mysteriousCond
  rcases ht : r.type with _ | _ | _ | _ | tag <;> simp
  cases hp : truthy r.path <;> cases hu : truthy r.url <;> simp [hp, hu]

theorem pickVariant_of_specVariant (r : RepositorySettings) (v : RepoVariant)
    (h : specVariant r = some v) : pickVariant r = some v := by
  unfold specVariant at h
  unfold pickVariant
  rcases ht : r.type with _ | _ | _ | _ | tag <;> simp_all
  cases hp : truthy r.path <;> cases hu : truthy r.url <;> simp_all

/-! Concrete fixtures used by witnesses and counterexamples. -/

/-- A trivial environment: constant serializer, empty-document parser,
identity digest, always-succeeding backends. -/
def envA : Env :=
  { stringify := fun _ => "A"
    parse := fun _ => some {}
    digest := id
    setProfileOk := fun _ _ => true }

def stateOf (r : RepositorySettings) : SettingsState :=
  { hash := ""
    hooks := {}
    hostname := none
    profile := "main"
    remote := false
    repository := r }

def worldOf (r : RepositorySettings) : World :=
  { settings := stateOf r
    disk := none
    inst := none
    nextId := 0 }

def gitBothRepo : RepositorySettings :=
  { type := RepositoryType.git, path := some "p", url := some "u" }

def gitEmptyPathRepo : RepositorySettings :=
  { type := RepositoryType.git, path := some "", url := some "u" }

def gitNeitherRepo : RepositorySettings :=
  { type := RepositoryType.git, path := some "", url := some "" }

def weirdRepo : RepositorySettings := { type := RepositoryType.other "weird" }

def dummyRepo : RepositorySettings := { type := RepositoryType.dummy }

/-- Claim C10: git sub-variant selection is decided by string truthiness, not
field presence: local-git iff `path` is a non-empty string, else remote-git
iff `url` is a non-empty string, else the "mysterious type" rejection — so
`path = ""` with non-empty `url` builds remote-git, and `path = ""` with
`url = ""` rejects. -/
theorem git_subvariant_truthiness (env : Env) (w : World)
    (hgit : w.settings.repository.type = RepositoryType.git) :
    (truthy w.settings.repository.path = true →
      (create env w).1.inst = some ⟨RepoVariant.localGit, w.nextId⟩) ∧
    (truthy w.settings.repository.path = false → truthy w.settings.repository.url = true →
      (create env w).1.inst = some ⟨RepoVariant.remoteGit, w.nextId⟩) ∧
    (truthy w.settings.repository.path = false → truthy w.settings.repository.url = false →
      create env w =
        ({ w with inst := none }, [], Res.err (Err.mysteriousType RepositoryType.git))) := by
  refine ⟨fun hp => ?_, fun hp hu => ?_, fun hp hu => ?_⟩
  · rw [create_of_pick_some env w RepoVariant.localGit (by simp [pickVariant, hgit, hp])]
  · rw [create_of_pick_some env w RepoVariant.remoteGit (by simp [pickVariant, hgit, hp, hu])]
  · rw [create_of_pick_none env w (by simp [pickVariant, hgit, hp, hu]), hgit]

/-- Witness for C10 at the two inputs named by the claim: `path = ""` with
`url = "u"` constructs the remote-git variant, and `path = "" `, `url = ""`
fails with the "mysterious type" error. -/
theorem git_subvariant_truthiness_witness :
    (create envA (worldOf gitEmptyPathRepo)).1.inst = some ⟨RepoVariant.remoteGit, 0⟩ ∧
    create envA (worldOf gitNeitherRepo) =
      ({ worldOf gitNeitherRepo with inst := none }, [],
        Res.err (Err.mysteriousType RepositoryType.git)) :=
  ⟨(git_subvariant_truthiness envA (worldOf gitEmptyPathRepo) rfl).2.1 rfl rfl,
    (git_subvariant_truthiness envA (worldOf gitNeitherRepo) rfl).2.2 rfl rfl⟩

/-- Counterexample to claim C3: with `type = git`, `path = "p"` and
`url = "u"` both non-empty, `get` does NOT fail with the "mysterious type"
error; it silently instantiates the local-git variant by precedence of the
`path` branch (repository-factory.ts:22). -/
theorem git_both_set_counterexample :
    (RepositoryFactory.get envA (worldOf gitBothRepo)).2.2 =
      Res.ok ⟨RepoVariant.localGit, 0⟩ ∧
    (RepositoryFactory.get envA (worldOf gitBothRepo)).2.2.isMysteriousErr = false ∧
    (RepositoryFactory.get envA (worldOf gitBothRepo)).1.inst =
      some ⟨RepoVariant.localGit, 0⟩ := by
  refine ⟨rfl, rfl, rfl⟩

/-- Claim C3 as amended: for a git document in which both `path` and `url`
are non-empty, backend construction silently picks the local-git variant by
precedence of the `path` test; no `ConfigurationError` is raised. -/
theorem git_both_set_picks_local (env : Env) (w : World) (hno : w.inst = none)
    (hgit : w.settings.repository.type = RepositoryType.git)
    (hp : truthy w.settings.repository.path = true)
    (_hu : truthy w.settings.repository.url = true) :
    (RepositoryFactory.get env w).1.inst = some ⟨RepoVariant.localGit, w.nextId⟩ ∧
    (RepositoryFactory.get env w).2.2.isMysteriousErr = false := by
  have hpick : pickVariant w.settings.repository = some RepoVariant.localGit := by
    simp [pickVariant, hgit, hp]
  have hget : RepositoryFactory.get env w = create env w := by
    simp [RepositoryFactory.get, hno]
  rw [hget, create_of_pick_some env w RepoVariant.localGit hpick]
  constructor
  · rfl
  · split <;> rfl

/-- Witness for the amended C3 at the counterexample input. -/
theorem git_both_set_picks_local_witness :
    (RepositoryFactory.get envA (worldOf gitBothRepo)).1.inst =
      some ⟨RepoVariant.localGit, 0⟩ ∧
    (RepositoryFactory.get envA (worldOf gitBothRepo)).2.2.isMysteriousErr = false :=
  git_both_set_picks_local envA (worldOf gitBothRepo) rfl rfl rfl rfl

/-- Claim C2: with no live instance, `get` fails with the "mysterious type"
`ConfigurationError` exactly when the document's `repository.type` is outside
the closed enumeration {none, file, git, rsync} or when the type is git and
neither `path` nor `url` is set (non-empty); for every well-formed parameter
set it constructs exactly the matching backend variant. -/
theorem get_mysterious_type_iff (env : Env) (w : World) (hno : w.inst = none) :
    ((RepositoryFactory.get env w).2.2.isMysteriousErr = true ↔
      mysteriousCond w.settings.repository) ∧
    (∀ v : RepoVariant, specVariant w.settings.repository = some v →
      (RepositoryFactory.get env w).1.inst = some ⟨v, w.nextId⟩ ∧
      (RepositoryFactory.get env w).2.2.isMysteriousErr = false) := by
  have hget : RepositoryFactory.get env w = create env w := by
    simp [RepositoryFactory.get, hno]
  constructor
  · rw [hget]
    cases hpick : pickVariant w.settings.repository with
    | none =>
        rw [create_of_pick_none env w hpick]
        simpa [Res.isMysteriousErr] using (pickVariant_eq_none_iff _).mp hpick
    | some v =>
        rw [create_of_pick_some env w v hpick]
        have hnc : ¬ mysteriousCond w.settings.repository := by
          intro hc
          rw [(pickVariant_eq_none_iff _).mpr hc] at hpick
          exact Option.noConfusion hpick
        simp only [iff_false_intro hnc, iff_false]
        split <;> simp [Res.isMysteriousErr]
  · intro v hv
    have hpick := pickVariant_of_specVariant _ _ hv
    rw [hget, create_of_pick_some env w v hpick]
    refine ⟨rfl, ?_⟩
    split <;> rfl

/-- Witness for C2: a document of unrecognized type "weird" makes `get`
fail with the "mysterious type" error; a `none`-typed document constructs
the dummy backend without that error. -/
theorem get_mysterious_type_iff_witness :
    (RepositoryFactory.get envA (worldOf weirdRepo)).2.2.isMysteriousErr = true ∧
    (RepositoryFactory.get envA (worldOf dummyRepo)).1.inst = some ⟨RepoVariant.dummy, 0⟩ ∧
    (RepositoryFactory.get envA (worldOf dummyRepo)).2.2.isMysteriousErr = false :=
  ⟨(get_mysterious_type_iff envA (worldOf weirdRepo) rfl).1.mpr
      (Or.inl (by refine ⟨?_, ?_, ?_, ?_⟩ <;> intro h <;> exact RepositoryType.noConfusion h)),
    ((get_mysterious_type_iff envA (worldOf dummyRepo) rfl).2 RepoVariant.dummy rfl).1,
    ((get_mysterious_type_iff envA (worldOf dummyRepo) rfl).2 RepoVariant.dummy rfl).2⟩

/-- Claim C4: when the on-disk bytes hash to the hash already held in memory,
`RepositoryFactory.reload` returns `false` and is a complete no-op: the whole
world (cached instance, settings fields, disk) is unchanged and no backend
event occurs. -/
theorem reload_unchanged_noop (env : Env) (w : World)
    (h : env.digest (w.disk.getD "") = w.settings.hash) :
    RepositoryFactory.reload env w = (w, [], Res.ok false) := by
  have hs : Settings.reload env w.settings w.disk = (w.settings, false, []) := by
    simp [Settings.reload, h]
  unfold RepositoryFactory.reload
  rw [hs]
  rfl

/-- Witness for C4: a fresh dummy world whose absent settings file hashes to
the in-memory hash. -/
theorem reload_unchanged_noop_witness :
    RepositoryFactory.reload envA (worldOf dummyRepo) =
      (worldOf dummyRepo, [], Res.ok false) :=
  reload_unchanged_noop envA (worldOf dummyRepo) rfl

/-- Claim C1: with a live instance, `RepositoryFactory.setProfile` calls the
backend's `setProfile` before persisting: on backend failure the whole world
— in particular the on-disk document — is unchanged and the call rejects; on
backend success the profile is persisted (in memory and to disk, the disk
write following the backend event). -/
theorem factory_setProfile_backend_first (env : Env) (w : World) (p : String)
    (r : Repository) (h : w.inst = some r) :
    (env.setProfileOk r.variant p = false →
      RepositoryFactory.setProfile env w p =
        (w, [Event.backendSetProfile r.id p], Res.err Err.backendError)) ∧
    (env.setProfileOk r.variant p = true →
      RepositoryFactory.setProfile env w p =
        ({ w with
            settings := (Settings.setProfile env w.settings p).1
            disk := some (Settings.setProfile env w.settings p).2 },
          [Event.backendSetProfile r.id p,
            Event.diskWrite (Settings.setProfile env w.settings p).2], Res.ok ()) ∧
      (Settings.setProfile env w.settings p).1.profile = p) := by
  constructor
  · intro hko
    simp [RepositoryFactory.setProfile, h, hko]
  · intro hok
    refine ⟨by simp [RepositoryFactory.setProfile, h, hok], ?_⟩
    simp [Settings.setProfile, Settings.save]

/-- A backend-failing environment for the C1 witness. -/
def envFail : Env :=
  { stringify := fun _ => "A"
    parse := fun _ => some {}
    digest := id
    setProfileOk := fun _ _ => false }

/-- A world with a live dummy instance. -/
def worldLive : World :=
  { settings := stateOf dummyRepo
    disk := some "old"
    inst := some ⟨RepoVariant.dummy, 0⟩
    nextId := 1 }

/-- Witness for C1: with a failing backend nothing is persisted and the call
rejects; with a succeeding backend the profile "work" is persisted. -/
theorem factory_setProfile_backend_first_witness :
    RepositoryFactory.setProfile envFail worldLive "work" =
      (worldLive, [Event.backendSetProfile 0 "work"], Res.err Err.backendError) ∧
    (Settings.setProfile envA worldLive.settings "work").1.profile = "work" :=
  ⟨(factory_setProfile_backend_first envFail worldLive "work" ⟨RepoVariant.dummy, 0⟩ rfl).1 rfl,
    ((factory_setProfile_backend_first envA worldLive "work" ⟨RepoVariant.dummy, 0⟩ rfl).2 rfl).2⟩

def Event.isTerminateEvent : Event → Bool
  | .terminate _ => true
  | _ => false

/-- An environment whose parser always yields a document of the unrecognized
type "weird". -/
def envWeird : Env :=
  { stringify := fun _ => "A"
    parse := fun _ => some { repository := some weirdRepo, profile := some "main" }
    digest := id
    setProfileOk := fun _ _ => true }

/-- A world with a live dummy instance, in-memory hash "h0" and on-disk
bytes "B" (so the content hash differs). -/
def worldLiveChanged : World :=
  { settings := { stateOf dummyRepo with hash := "h0" }
    disk := some "B"
    inst := some ⟨RepoVariant.dummy, 0⟩
    nextId := 1 }

/-- Counterexample to claim C5: the on-disk hash differs and a live instance
exists, yet `reload` does not return `true` — the changed document has an
unrecognized type, so reconstruction throws after the old instance was
terminated, and no fresh construction happens. -/
theorem reload_changed_counterexample :
    envWeird.digest (worldLiveChanged.disk.getD "") ≠ worldLiveChanged.settings.hash ∧
    worldLiveChanged.inst = some ⟨RepoVariant.dummy, 0⟩ ∧
    (RepositoryFactory.reload envWeird worldLiveChanged).2.2 =
      Res.err (Err.mysteriousType (RepositoryType.other "weird")) ∧
    (RepositoryFactory.reload envWeird worldLiveChanged).2.1.countP Event.isConstruct = 0 := by
  refine ⟨by decide, rfl, rfl, rfl⟩


/-- Claim C5 as amended: when the content hash differs, `reload` returns
`true` when no live instance existed (then nothing is constructed or
terminated — construction is deferred to the next `get()`).  With a live
instance, if the reconstruction from the newly loaded document succeeds the
result is `Res.ok true` and the events are exactly one `terminate()` of the
old instance followed by exactly one fresh construction (and its profile
activation); if the selection finds no variant, the old instance has still
been terminated exactly once and `reload` rejects with the "mysterious type"
construction error after that single terminate; if the fresh backend's
profile activation fails, `reload` rejects with the backend error after the
single terminate and the single construction — in no failure case does it
return `true`. -/
theorem reload_changed_behavior (env : Env) (w : World)
    (h : env.digest (w.disk.getD "") ≠ w.settings.hash) :
    (w.inst = none →
      RepositoryFactory.reload env w =
        ({ w with settings := (Settings.reload env w.settings w.disk).1 }, [], Res.ok true)) ∧
    (∀ r : Repository, w.inst = some r →
      (∀ v : RepoVariant,
        pickVariant (Settings.reload env w.settings w.disk).1.repository = some v →
        (env.setProfileOk v (Settings.reload env w.settings w.disk).1.profile = true →
          RepositoryFactory.reload env w =
            ({ w with
                settings := (Settings.reload env w.settings w.disk).1
                inst := some ⟨v, w.nextId⟩
                nextId := w.nextId + 1 },
              [Event.terminate r.id, Event.construct v w.nextId,
                Event.backendSetProfile w.nextId
                  (Settings.reload env w.settings w.disk).1.profile],
              Res.ok true)) ∧
        (env.setProfileOk v (Settings.reload env w.settings w.disk).1.profile = false →
          RepositoryFactory.reload env w =
            ({ w with
                settings := (Settings.reload env w.settings w.disk).1
                inst := some ⟨v, w.nextId⟩
                nextId := w.nextId + 1 },
              [Event.terminate r.id, Event.construct v w.nextId,
                Event.backendSetProfile w.nextId
                  (Settings.reload env w.settings w.disk).1.profile],
              Res.err Err.backendError))) ∧
      (pickVariant (Settings.reload env w.settings w.disk).1.repository = none →
        RepositoryFactory.reload env w =
          ({ w with settings := (Settings.reload env w.settings w.disk).1, inst := none },
            [Event.terminate r.id],
            Res.err (Err.mysteriousType
              (Settings.reload env w.settings w.disk).1.repository.type)))) := by
  have hne : w.settings.hash ≠ env.digest (w.disk.getD "") := fun he => h he.symm
  have hchanged : (Settings.reload env w.settings w.disk).2.1 = true := by
    simp [Settings.reload, hne]
  constructor
  · intro hno
    simp [RepositoryFactory.reload, hchanged, hno]
  · intro r hr
    refine ⟨fun v hpick => ?_, fun hpick => ?_⟩
    · have hc := create_of_pick_some env
        { w with settings := (Settings.reload env w.settings w.disk).1 } v hpick
      rw [hr] at hc
      refine ⟨fun hok => ?_, fun hok => ?_⟩ <;>
        simp [RepositoryFactory.reload, hchanged, hr, hc, hok]
    · have hc := create_of_pick_none env
        { w with settings := (Settings.reload env w.settings w.disk).1 } hpick
      rw [hr] at hc
      simp [RepositoryFactory.reload, hchanged, hr, hc]

/-- A world whose on-disk bytes changed but with no live instance. -/
def worldChangedNoInst : World :=
  { settings := { stateOf dummyRepo with hash := "h0" }
    disk := some "B"
    inst := none
    nextId := 0 }

/-- An environment whose parser yields a valid `none`-typed (dummy)
document, with succeeding backends. -/
def envChange : Env :=
  { stringify := fun _ => "A"
    parse := fun _ => some { repository := some dummyRepo, profile := some "main" }
    digest := id
    setProfileOk := fun _ _ => true }

/-- Witness for the amended C5: a changed valid document with a live
instance reloads to `Res.ok true` with exactly one terminate followed by
one construction; a changed document with no live instance reloads to
`true` with no events; a changed invalid document with a live instance
still terminates it exactly once and rejects with the construction error. -/
theorem reload_changed_behavior_witness :
    RepositoryFactory.reload envChange worldLiveChanged =
      ({ worldLiveChanged with
          settings :=
            (Settings.reload envChange worldLiveChanged.settings worldLiveChanged.disk).1
          inst := some ⟨RepoVariant.dummy, 1⟩
          nextId := 2 },
        [Event.terminate 0, Event.construct RepoVariant.dummy 1,
          Event.backendSetProfile 1
            (Settings.reload envChange worldLiveChanged.settings worldLiveChanged.disk).1.profile],
        Res.ok true) ∧
    RepositoryFactory.reload envA worldChangedNoInst =
      ({ worldChangedNoInst with
          settings :=
            (Settings.reload envA worldChangedNoInst.settings worldChangedNoInst.disk).1 },
        [], Res.ok true) ∧
    RepositoryFactory.reload envWeird worldLiveChanged =
      ({ worldLiveChanged with
          settings :=
            (Settings.reload envWeird worldLiveChanged.settings worldLiveChanged.disk).1
          inst := none },
        [Event.terminate 0],
        Res.err (Err.mysteriousType (RepositoryType.other "weird"))) :=
  ⟨(((reload_changed_behavior envChange worldLiveChanged (by decide)).2
      ⟨RepoVariant.dummy, 0⟩ rfl).1 RepoVariant.dummy rfl).1 rfl,
    (reload_changed_behavior envA worldChangedNoInst (by decide)).1 rfl,
    ((reload_changed_behavior envWeird worldLiveChanged (by decide)).2
      ⟨RepoVariant.dummy, 0⟩ rfl).2 rfl⟩

/-- Claim C6: for every parsed document lacking the `repository` field,
`Settings.set` yields the inert configuration — repository `{type: none}`
(code tag `DUMMY`), empty profile — logs an error, and completes normally
(it is total, so the load never fails on such a document). -/
theorem set_missing_repository_inert (s : SettingsState) (data : SettingsData)
    (h : data.repository = none) :
    (Settings.set s data).1.repository = { type := RepositoryType.dummy } ∧
    (Settings.set s data).1.profile = "" ∧
    (Settings.set s data).1.hostname = some "" ∧
    Log.error "No `repository` property has been defined in the settings" ∈
      (Settings.set s data).2 := by
  unfold Settings.set
  rw [h]
  simp

/-- Witness for C6: the empty document. -/
theorem set_missing_repository_inert_witness :
    (Settings.set (stateOf dummyRepo) {}).1.repository = { type := RepositoryType.dummy } ∧
    (Settings.set (stateOf dummyRepo) {}).1.profile = "" ∧
    (Settings.set (stateOf dummyRepo) {}).1.hostname = some "" ∧
    Log.error "No `repository` property has been defined in the settings" ∈
      (Settings.set (stateOf dummyRepo) {}).2 :=
  set_missing_repository_inert (stateOf dummyRepo) {} rfl

/-- Claim C7: with no live instance and a well-formed document, `get`
constructs exactly the matching variant exactly once (one construct event),
caches it, and a second `get` with no intervening `reset`/changed-`reload`
returns the very same instance with no further events. -/
theorem get_constructs_once_and_caches (env : Env) (w : World) (v : RepoVariant)
    (hno : w.inst = none) (hv : specVariant w.settings.repository = some v)
    (hok : env.setProfileOk v w.settings.profile = true) :
    (RepositoryFactory.get env w).2.2 = Res.ok ⟨v, w.nextId⟩ ∧
    (RepositoryFactory.get env w).1.inst = some ⟨v, w.nextId⟩ ∧
    (RepositoryFactory.get env w).2.1.countP Event.isConstruct = 1 ∧
    RepositoryFactory.get env (RepositoryFactory.get env w).1 =
      ((RepositoryFactory.get env w).1, [], Res.ok ⟨v, w.nextId⟩) := by
  have hpick := pickVariant_of_specVariant _ _ hv
  have hget : RepositoryFactory.get env w = create env w := by
    simp [RepositoryFactory.get, hno]
  rw [hget, create_of_pick_some env w v hpick]
  refine ⟨by simp [hok], rfl, ?_, ?_⟩
  · simp [List.countP_cons, List.countP_nil, Event.isConstruct]
  · simp [RepositoryFactory.get, hok]

def fileRepo : RepositorySettings := { type := RepositoryType.file }

/-- Witness for C7 with a file-backend document. -/
theorem get_constructs_once_and_caches_witness :
    (RepositoryFactory.get envA (worldOf fileRepo)).2.2 = Res.ok ⟨RepoVariant.file, 0⟩ ∧
    RepositoryFactory.get envA (RepositoryFactory.get envA (worldOf fileRepo)).1 =
      ((RepositoryFactory.get envA (worldOf fileRepo)).1, [], Res.ok ⟨RepoVariant.file, 0⟩) :=
  ⟨(get_constructs_once_and_caches envA (worldOf fileRepo) RepoVariant.file rfl rfl rfl).1,
    (get_constructs_once_and_caches envA (worldOf fileRepo) RepoVariant.file rfl rfl rfl).2.2.2⟩

theorem hooks_empty_of_not_nonempty (h : Hooks) (hne : h.nonempty = false) : h = {} := by
  obtain ⟨a, b, c, d⟩ := h
  cases a <;> cases b <;> cases c <;> cases d <;> simp_all [Hooks.nonempty]

theorem load_existing (env : Env) (remote : Bool) (d : String) (defaultDoc : Option String)
    (hd : truthy (some d) = true) :
    Settings.load env remote (some d) defaultDoc =
      ({ (Settings.set (loadInit remote) ((env.parse d).getD emptyData)).1 with
          hash := env.digest d },
        some d, (Settings.set (loadInit remote) ((env.parse d).getD emptyData)).2) := by
  unfold Settings.load
  simp [hd]

theorem set_savedData (s₀ s : SettingsState) :
    (Settings.set s₀ (savedData s)).1.hooks = s.hooks ∧
    (Settings.set s₀ (savedData s)).1.hostname = s.hostname ∧
    (Settings.set s₀ (savedData s)).1.profile = s.profile ∧
    (Settings.set s₀ (savedData s)).1.repository = s.repository := by
  refine ⟨?_, rfl, rfl, rfl⟩
  show (if s.hooks.nonempty then some s.hooks else none).getD {} = s.hooks
  cases hh : s.hooks.nonempty with
  | true => rfl
  | false => exact (hooks_empty_of_not_nonempty s.hooks hh).symm

/-- Claim C8: `save()` followed by `reload()` is a hash-detected no-op (the
state is returned unchanged), and `save()` followed by a fresh `load()`
reproduces the four recognized in-memory fields (hooks, hostname, profile,
repository), given that the assumed YAML primitives round-trip the saved
document to itself and serialize it to non-empty bytes. -/
theorem save_roundtrip (env : Env) (s : SettingsState) (remote : Bool)
    (defaultDoc : Option String)
    (hrt : env.parse (env.stringify (savedData s)) = some (savedData s))
    (hne : env.stringify (savedData s) ≠ "") :
    Settings.reload env (Settings.save env s).1 (some (Settings.save env s).2) =
      ((Settings.save env s).1, false, []) ∧
    ((Settings.load env remote (some (Settings.save env s).2) defaultDoc).1.hooks = s.hooks ∧
      (Settings.load env remote (some (Settings.save env s).2) defaultDoc).1.hostname =
        s.hostname ∧
      (Settings.load env remote (some (Settings.save env s).2) defaultDoc).1.profile =
        s.profile ∧
      (Settings.load env remote (some (Settings.save env s).2) defaultDoc).1.repository =
        s.repository) := by
  have htr : truthy (some (Settings.save env s).2) = true := by
    simp only [truthy, Settings.save, bne_iff_ne, ne_eq]
    exact hne
  constructor
  · simp [Settings.reload, Settings.save]
  · rw [load_existing env remote (Settings.save env s).2 defaultDoc htr]
    have hp : env.parse (Settings.save env s).2 = some (savedData s) := hrt
    rw [hp]
    simp only [Option.getD_some]
    exact ⟨(set_savedData (loadInit remote) s).1, (set_savedData (loadInit remote) s).2.1,
      (set_savedData (loadInit remote) s).2.2.1, (set_savedData (loadInit remote) s).2.2.2⟩

/-- A round-tripping environment for the C8 witness: the concrete saved
document of `stateOf dummyRepo` parses back to itself. -/
def envRT : Env :=
  { stringify := fun _ => "D"
    parse := fun _ => some (savedData (stateOf dummyRepo))
    digest := id
    setProfileOk := fun _ _ => true }

/-- Witness for C8 at a concrete state. -/
theorem save_roundtrip_witness :
    Settings.reload envRT (Settings.save envRT (stateOf dummyRepo)).1
        (some (Settings.save envRT (stateOf dummyRepo)).2) =
      ((Settings.save envRT (stateOf dummyRepo)).1, false, []) ∧
    (Settings.load envRT false (some (Settings.save envRT (stateOf dummyRepo)).2) none).1.profile
      = (stateOf dummyRepo).profile :=
  ⟨(save_roundtrip envRT (stateOf dummyRepo) false none rfl (by decide)).1,
    (save_roundtrip envRT (stateOf dummyRepo) false none rfl (by decide)).2.2.2.1⟩

/-- Counterexample to claim C9: after `save` writes bytes "A" (the process's
last disk I/O) the settings file is deleted externally; the following
`reload` reads nothing, yet rehashes the in-memory hash to the digest of the
empty string — the in-memory hash no longer equals the digest of the last
bytes written to or read from disk by this process. -/
theorem hash_stale_after_external_delete :
    (Settings.save envA (stateOf dummyRepo)).2 = "A" ∧
    (Settings.save envA (stateOf dummyRepo)).1.hash = envA.digest "A" ∧
    (Settings.reload envA (Settings.save envA (stateOf dummyRepo)).1 none).2.1 = true ∧
    (Settings.reload envA (Settings.save envA (stateOf dummyRepo)).1 none).1.hash ≠
      envA.digest "A" := by
  exact ⟨rfl, rfl, rfl, by decide⟩

/-- Claim C9 as amended: after each of `save`, `reload` and `load`, the
in-memory content hash equals the digest of the settings file contents as
the operation left them, with an absent file hashed as the empty document —
which coincides with the digest of the last bytes written or read whenever
the file exists. -/
theorem hash_matches_disk_after_ops (env : Env) (s : SettingsState) (disk : Option String)
    (remote : Bool) (defaultDoc : Option String) :
    (Settings.save env s).1.hash = env.digest (Settings.save env s).2 ∧
    (Settings.reload env s disk).1.hash = env.digest (disk.getD "") ∧
    (Settings.load env remote disk defaultDoc).1.hash =
      env.digest ((Settings.load env remote disk defaultDoc).2.1.getD "") := by
  refine ⟨rfl, ?_, ?_⟩
  · simp only [Settings.reload]
    split
    · rfl
    · rename_i hc
      exact not_ne_iff.mp hc
  · simp only [Settings.load]
    split
    · rfl
    · cases defaultDoc with
      | some dd => rfl
      | none => rfl
